import Mathlib

/-!
LottoCheck — a CloudFlare Worker that checks the Mega Millions and
Powerball jackpots against a configurable threshold, detects upward
threshold crossings relative to persisted state, and notifies once per
crossing.  This file is a shallow embedding of `src/index.js`:
JavaScript numbers are modelled as extended rationals (`JSNum`), thrown
exceptions as `Except String`, the CloudFlare KV binding as an
association list together with failure flags, and the `scheduled`
handler as a pure function from the fetched feed results, the
environment and the clock to a run result.
-/

/-- A JavaScript number: `NaN`, a signed infinity, or a finite value
(modelled as a rational; floating-point precision is idealized — every
comparison the program performs is exact on these values). -/
inductive JSNum where
  | nan : JSNum
  | posInf : JSNum
  | negInf : JSNum
  | fin : ℚ → JSNum
deriving DecidableEq

/-- JavaScript `isNaN` on a value already known to be a number. -/
def JSNum.isNaN : JSNum → Bool
  | .nan => true
  | _ => false

/-- JavaScript `<` on numbers: any comparison with `NaN` is false. -/
def jlt : JSNum → JSNum → Bool
  | .nan, _ => false
  | _, .nan => false
  | .negInf, .negInf => false
  | .negInf, _ => true
  | _, .negInf => false
  | .posInf, _ => false
  | .fin _, .posInf => true
  | .fin a, .fin b => decide (a < b)

/-- JavaScript `>=` on numbers: any comparison with `NaN` is false. -/
def jge : JSNum → JSNum → Bool
  | .nan, _ => false
  | _, .nan => false
  | .posInf, _ => true
  | _, .posInf => false
  | .negInf, .negInf => true
  | .negInf, _ => false
  | _, .negInf => true
  | .fin a, .fin b => decide (b ≤ a)

/-- JavaScript `>` on numbers. -/
def jgt (a b : JSNum) : Bool := jlt b a

/-- JavaScript `<=` on numbers. -/
def jle (a b : JSNum) : Bool := jge b a

/-- JavaScript truthiness of a number: `0` and `NaN` are falsy. -/
def jsTruthy : JSNum → Bool
  | .nan => false
  | .fin q => decide (q ≠ 0)
  | _ => true

/-- JavaScript truthiness of an optional string field: `undefined` and
the empty string are falsy. -/
def optStrTruthy : Option String → Bool
  | none => false
  | some s => !(s == "")

/-- A JavaScript value, as far as the validation code distinguishes
values: a number, a string, a boolean, `undefined` or `null`. -/
inductive JSVal where
  | num : JSNum → JSVal
  | str : String → JSVal
  | boolean : Bool → JSVal
  | undef : JSVal
  | null : JSVal
deriving DecidableEq

/-- The validation test `typeof x !== 'number' || isNaN(x)` used by
`detectThresholdCrossing`: true exactly on non-numbers and `NaN`. -/
def jsIsInvalidNumber : JSVal → Bool
  | .num n => n.isNaN
  | _ => true

/-- Extract the number from a `JSVal` known to be a valid number. -/
def JSVal.toNum : JSVal → JSNum
  | .num n => n
  | _ => .nan

/-- The record returned by `detectThresholdCrossing`. -/
structure ThresholdCrossingInfo where
  crossed : Bool
  previousAmount : JSNum
  currentAmount : JSNum
  threshold : JSNum
deriving DecidableEq

/-- `detectThresholdCrossing(previousAmount, currentAmount,
thresholdMillions)` from `src/index.js`: validates the three arguments
(throwing on non-numbers and `NaN`), then reports
`crossed = previousAmount < threshold && currentAmount >= threshold`. -/
def detectThresholdCrossing (previousAmount currentAmount thresholdMillions : JSVal) :
    Except String ThresholdCrossingInfo :=
  if jsIsInvalidNumber previousAmount then
    .error "previousAmount must be a valid number"
  else if jsIsInvalidNumber currentAmount then
    .error "currentAmount must be a valid number"
  else if jsIsInvalidNumber thresholdMillions then
    .error "thresholdMillions must be a valid number"
  else
    .ok { crossed := jlt previousAmount.toNum thresholdMillions.toNum &&
                     jge currentAmount.toNum thresholdMillions.toNum,
          previousAmount := previousAmount.toNum,
          currentAmount := currentAmount.toNum,
          threshold := thresholdMillions.toNum }

/-- Whether an `Except` computation returned normally. -/
def exceptOk {α : Type} : Except String α → Bool
  | .ok _ => true
  | .error _ => false

/-- The digits after the decimal point produced by `toFixed`: exactly `d`
characters, the base-10 digits of `m` below `10 ^ d`, most significant
first. -/
def fracDigitsStr (m d : ℕ) : String :=
  String.mk ((List.range d).map fun i => Char.ofNat (48 + m / 10 ^ (d - 1 - i) % 10))

/-- The rounding step of `toFixed`: the integer nearest to `q * 10 ^ d`
(ties towards +infinity, as the ECMAScript algorithm picks the larger
candidate), that is `⌊q * 10 ^ d + 1 / 2⌋`, computed on the numerator
and denominator so that the kernel can evaluate it
(see `toFixedRound_eq_floor`). -/
def toFixedRound (q : ℚ) (d : ℕ) : ℤ :=
  (2 * q.num * (10 : ℤ) ^ d + (q.den : ℤ)) / ((2 * q.den : ℕ) : ℤ)

/-- `Number.prototype.toFixed(d)` on a finite value: round to `d`
fractional digits and render them (no point for `d = 0`). -/
def ratToFixed (q : ℚ) (d : ℕ) : String :=
  let n : ℤ := toFixedRound q d
  if d = 0 then toString n
  else (if n < 0 then "-" else "") ++ toString (n.natAbs / 10 ^ d) ++ "." ++ fracDigitsStr n.natAbs d

/-- `toFixed` on a general JavaScript number. -/
def jsToFixed : JSNum → ℕ → String
  | .nan, _ => "NaN"
  | .posInf, _ => "Infinity"
  | .negInf, _ => "-Infinity"
  | .fin q, d => ratToFixed q d

/-- `const BILLION_IN_MILLIONS = 1000`. -/
def BILLION_IN_MILLIONS : ℚ := 1000

/-- `const DEFAULT_THRESHOLD_MILLIONS = 1500`. -/
def DEFAULT_THRESHOLD_MILLIONS : ℚ := 1500

/-- Division of a JavaScript number by a nonzero finite constant (only
used with `BILLION_IN_MILLIONS`), computed on numerators and
denominators so that the kernel can evaluate it
(see `jsDivPos_eq`). -/
def jsDivPos : JSNum → ℚ → JSNum
  | .nan, _ => .nan
  | .posInf, _ => .posInf
  | .negInf, _ => .negInf
  | .fin q, k => .fin (Rat.divInt (q.num * (k.den : ℤ)) ((q.den : ℤ) * k.num))

/-- `formatJackpotDisplay(amountInMillions)` from `src/index.js`:
amounts at or above 1000 render as billions with two fractional digits,
anything below as whole millions. -/
def formatJackpotDisplay (amountInMillions : JSNum) : String :=
  if jge amountInMillions (.fin BILLION_IN_MILLIONS) then
    "$" ++ jsToFixed (jsDivPos amountInMillions BILLION_IN_MILLIONS) 2 ++ " Billion"
  else
    "$" ++ jsToFixed amountInMillions 0 ++ " Million"

/-- A `LotteryResult` as produced by `checkMegaMillions` /
`checkPowerball`: name, display string, normalized amount in millions,
next-drawing label, and an optional error message (present iff the fetch
or parse failed, in which case the adapters set `jackpotAmount = 0`). -/
structure LotteryResult where
  lottery : String
  jackpot : String
  jackpotAmount : JSNum
  nextDrawing : String
  error : Option String
deriving DecidableEq

/-- A value held under one key of the KV namespace: either a string that
`JSON.parse` rejects, or the parsed record written by
`storePreviousJackpot` (`jackpotAmount` is `none` when the field was
absent or serialized from a non-finite number as `null`). -/
inductive KVEntry where
  | corrupt : KVEntry
  | record : Option JSNum → String → KVEntry
deriving DecidableEq

/-- The CloudFlare KV namespace: its keyed entries, plus flags modelling
a `kv.get` that throws and a `kv.put` that throws. -/
structure KVStore where
  entries : List (String × KVEntry)
  readFails : Bool
  writeFails : Bool
deriving DecidableEq

/-- `JSON.stringify` then `JSON.parse` on a number field: finite numbers
survive the round trip exactly, `NaN` and the infinities serialize to
`null`. -/
def jsonNumber : JSNum → Option JSNum
  | .fin q => some (.fin q)
  | _ => none

/-- `getPreviousJackpot(kv, lotteryName)` from `src/index.js`: `0` when
the binding is absent, the read throws, the key is missing, the stored
JSON does not parse, or `data.jackpotAmount` is falsy (the `|| 0`). -/
def getPreviousJackpot (kv : Option KVStore) (lotteryName : String) : JSNum :=
  match kv with
  | none => .fin 0
  | some store =>
    if store.readFails then .fin 0
    else
      match store.entries.lookup lotteryName with
      | none => .fin 0
      | some .corrupt => .fin 0
      | some (.record jackpotAmount _) =>
        match jackpotAmount with
        | none => .fin 0
        | some v => if jsTruthy v then v else .fin 0

/-- `storePreviousJackpot(kv, lotteryName, jackpotAmount)` from
`src/index.js`: a no-op without a binding, leaves the store unchanged
when `kv.put` throws (the error is caught and logged), and otherwise
records `{jackpotAmount, lastChecked: now}` under the lottery name.
`now` stands for `new Date().toISOString()`. -/
def storePreviousJackpot (kv : Option KVStore) (lotteryName : String) (jackpotAmount : JSNum)
    (now : String) : Option KVStore :=
  match kv with
  | none => none
  | some store =>
    if store.writeFails then some store
    else some { store with
      entries := (lotteryName, KVEntry.record (jsonNumber jackpotAmount) now) :: store.entries }

/-- The worker environment: `JACKPOT_THRESHOLD` holds the `parseFloat`
image of the configured string when the variable is set (strings
themselves are not modelled; a parse failure is the value `NaN`),
`FROM_EMAIL` / `TO_EMAIL` the notification addresses, and
`LOTTERY_STATE` the KV binding. -/
structure Env where
  JACKPOT_THRESHOLD : Option JSNum
  FROM_EMAIL : Option String
  TO_EMAIL : Option String
  LOTTERY_STATE : Option KVStore
deriving DecidableEq

/-- `parseFloat(env?.JACKPOT_THRESHOLD)`: an unset variable parses to
`NaN`. -/
def Env.parsedThreshold (env : Env) : JSNum :=
  match env.JACKPOT_THRESHOLD with
  | none => .nan
  | some v => v

/-- The threshold resolution in `checkThresholds`:
`!isNaN(parsed) && parsed > 0 ? parsed : DEFAULT_THRESHOLD_MILLIONS`. -/
def resolveThreshold (env : Env) : JSNum :=
  let parsed := env.parsedThreshold
  if !parsed.isNaN && jgt parsed (.fin 0) then parsed else .fin DEFAULT_THRESHOLD_MILLIONS

/-- A `LotteryResult` annotated with its threshold flag (the source
spreads the result fields; the embedding nests them). -/
structure AnnotatedResult where
  result : LotteryResult
  exceedsThreshold : Bool
deriving DecidableEq

/-- The `threshold` summary object of `checkThresholds`. -/
structure ThresholdInfo where
  amount : JSNum
  display : String
  exceeded : Bool
  exceedingLotteries : List String
deriving DecidableEq

/-- The value returned by `checkThresholds`. -/
structure ThresholdResults where
  megaMillions : AnnotatedResult
  powerball : AnnotatedResult
  threshold : ThresholdInfo
deriving DecidableEq

/-- `checkThresholds(megaMillions, powerball, env)` from `src/index.js`.
A feed exceeds iff its `error` field is falsy and its amount compares
`>=` against the resolved threshold (the source also checks
`typeof jackpotAmount === 'number'`, which always holds here since the
field is a number by construction). -/
def checkThresholds (megaMillions powerball : LotteryResult) (env : Env) : ThresholdResults :=
  let thresholdMillions := resolveThreshold env
  let megaExceeds := !optStrTruthy megaMillions.error &&
    jge megaMillions.jackpotAmount thresholdMillions
  let powerballExceeds := !optStrTruthy powerball.error &&
    jge powerball.jackpotAmount thresholdMillions
  let exceedingLotteries :=
    (if megaExceeds then ["Mega Millions"] else []) ++
    (if powerballExceeds then ["Powerball"] else [])
  { megaMillions := { result := megaMillions, exceedsThreshold := megaExceeds },
    powerball := { result := powerball, exceedsThreshold := powerballExceeds },
    threshold := { amount := thresholdMillions,
                   display := formatJackpotDisplay thresholdMillions,
                   exceeded := decide (exceedingLotteries.length > 0),
                   exceedingLotteries := exceedingLotteries } }

/-- The resolution policy as the specification words it: if the
configured value is absent, the parse fails or yields `NaN`, or yields a
value `<= 0`, the resolved threshold is the fixed default 1500;
otherwise it is the parsed value.  (Spec-side definition, for comparison
with `resolveThreshold`.) -/
def resolvedThresholdSpec : Option JSNum → JSNum
  | none => .fin DEFAULT_THRESHOLD_MILLIONS
  | some p => if p.isNaN || jle p (.fin 0) then .fin DEFAULT_THRESHOLD_MILLIONS else p

/-- A successfully fetched Mega Millions result, used by witnesses. -/
def megaSample : LotteryResult :=
  { lottery := "Mega Millions", jackpot := "$1.70 Billion", jackpotAmount := .fin 1700,
    nextDrawing := "Fri, Dec 26, 2025", error := none }

/-- A failed Powerball fetch (amount forced to 0), used by witnesses. -/
def powerballErrSample : LotteryResult :=
  { lottery := "Powerball", jackpot := "Error", jackpotAmount := .fin 0,
    nextDrawing := "Error", error := some "network failure" }

/-- An environment with email configured, no threshold override, and an
empty working KV binding, used by witnesses. -/
def envSample : Env :=
  { JACKPOT_THRESHOLD := none, FROM_EMAIL := some "lotto@example.com",
    TO_EMAIL := some "me@example.com",
    LOTTERY_STATE := some { entries := [], readFails := false, writeFails := false } }

/-- The HTML body template of `buildNotificationEmail` (the trimmed
template literal from `src/index.js`). -/
def emailHtml (lotteryName previousDisplay currentDisplay thresholdDisplay nextDrawing : String) :
    String :=
  "<!DOCTYPE html>\n<html>\n<head>\n\t<meta charset=\"UTF-8\">\n\t<style>\n\t\tbody \x7b font-family: Arial, sans-serif; line-height: 1.6; color: #333; \x7d\n\t\t.container \x7b max-width: 600px; margin: 0 auto; padding: 20px; \x7d\n\t\th2 \x7b color: #2c3e50; \x7d\n\t\tul \x7b background: #f4f4f4; padding: 20px; border-radius: 5px; \x7d\n\t\tli \x7b margin: 10px 0; \x7d\n\t\t.footer \x7b margin-top: 20px; font-size: 0.9em; color: #666; \x7d\n\t</style>\n</head>\n<body>\n\t<div class=\"container\">\n\t\t<h2>🎰 Lottery Jackpot Alert!</h2>\n\t\t<p><strong>" ++
  lotteryName ++
  "</strong> has crossed your threshold!</p>\n\t\t<ul>\n\t\t\t<li><strong>Previous:</strong> " ++
  previousDisplay ++
  "</li>\n\t\t\t<li><strong>Current:</strong> " ++
  currentDisplay ++
  "</li>\n\t\t\t<li><strong>Your threshold:</strong> " ++
  thresholdDisplay ++
  "</li>\n\t\t\t<li><strong>Next drawing:</strong> " ++
  nextDrawing ++
  "</li>\n\t\t</ul>\n\t\t<p class=\"footer\">This is an automated notification from LottoCheck.</p>\n\t</div>\n</body>\n</html>"

/-- `buildNotificationEmail(lotteryName, previousAmount, currentAmount,
threshold, nextDrawing)` from `src/index.js`: validates the five inputs
(throwing on empty strings, non-numbers and `NaN`) and renders the HTML
body, with all three monetary figures formatted by
`formatJackpotDisplay`. -/
def buildNotificationEmail (lotteryName : String) (previousAmount currentAmount threshold : JSNum)
    (nextDrawing : String) : Except String String :=
  if lotteryName == "" then .error "lotteryName must be a non-empty string"
  else if previousAmount.isNaN then .error "previousAmount must be a valid number"
  else if currentAmount.isNaN then .error "currentAmount must be a valid number"
  else if threshold.isNaN then .error "threshold must be a valid number"
  else if nextDrawing == "" then .error "nextDrawing must be a non-empty string"
  else .ok (emailHtml lotteryName (formatJackpotDisplay previousAmount)
    (formatJackpotDisplay currentAmount) (formatJackpotDisplay threshold) nextDrawing)

/-- `isEmailConfigured(env)` from `src/index.js`:
`!!(env?.FROM_EMAIL && env?.TO_EMAIL)`. -/
def isEmailConfigured (env : Env) : Bool :=
  optStrTruthy env.FROM_EMAIL && optStrTruthy env.TO_EMAIL

/-- One dispatched email request (the arguments the scheduled handler
passes to `sendEmail`, plus the lottery tag attached to the result). -/
structure Notification where
  lottery : String
  fromEmail : String
  toEmail : String
  subject : String
  htmlBody : String
deriving DecidableEq

/-- Step 5 of the scheduled handler for one feed: when the crossing
fired, the feed result carries no (truthy) error and the email transport
is configured, build the message and dispatch it; otherwise do
nothing. -/
def notifyStep (lotteryName : String) (crossed : Bool) (errorMessage : Option String) (env : Env)
    (previousAmount currentAmount threshold : JSNum) (nextDrawing subject : String) :
    Except String (List Notification) :=
  if crossed && !optStrTruthy errorMessage && isEmailConfigured env then
    (buildNotificationEmail lotteryName previousAmount currentAmount threshold nextDrawing).map
      fun html =>
        [{ lottery := lotteryName, fromEmail := env.FROM_EMAIL.getD "",
           toEmail := env.TO_EMAIL.getD "", subject := subject, htmlBody := html }]
  else .ok []

/-- Everything a scheduled run produces: the annotated threshold
results (step 3, logged in step 7), the two crossing decisions (step 4,
logged in step 7), the dispatched notifications (step 5, completed in
the background under `ctx.waitUntil`), and the KV state after the
unconditional step-6 writes (also background-completed). -/
structure RunResult where
  results : ThresholdResults
  megaCrossing : ThresholdCrossingInfo
  powerballCrossing : ThresholdCrossingInfo
  notifications : List Notification
  finalState : Option KVStore
deriving DecidableEq

/-- Steps 4 and 5 of the scheduled handler, with the previously read
amounts, the threshold evaluation and the step-6 final state passed in:
detect both crossings, dispatch the notifications, and assemble the run
result. -/
def runSteps (megaMillions powerball : LotteryResult) (env : Env)
    (prevMega prevPowerball : JSNum) (results : ThresholdResults)
    (finalState : Option KVStore) : Except String RunResult :=
  let thresholdMillions := results.threshold.amount
  match detectThresholdCrossing (.num prevMega) (.num megaMillions.jackpotAmount)
      (.num thresholdMillions) with
  | .error e => .error e
  | .ok megaCrossing =>
    match detectThresholdCrossing (.num prevPowerball) (.num powerball.jackpotAmount)
        (.num thresholdMillions) with
    | .error e => .error e
    | .ok powerballCrossing =>
      match notifyStep "Mega Millions" megaCrossing.crossed megaMillions.error env prevMega
          megaMillions.jackpotAmount thresholdMillions megaMillions.nextDrawing
          "🎰 Mega Millions Jackpot Alert!" with
      | .error e => .error e
      | .ok megaNotifications =>
        match notifyStep "Powerball" powerballCrossing.crossed powerball.error env prevPowerball
            powerball.jackpotAmount thresholdMillions powerball.nextDrawing
            "🎰 Powerball Jackpot Alert!" with
        | .error e => .error e
        | .ok powerballNotifications =>
          .ok { results := results, megaCrossing := megaCrossing,
                powerballCrossing := powerballCrossing,
                notifications := megaNotifications ++ powerballNotifications,
                finalState := finalState }

/-- The body of the `scheduled(controller, env, ctx)` handler from
`src/index.js`, given the two feed results fetched in step 1 and the
clock reading `now`: read both previous amounts (step 2), evaluate the
thresholds (step 3), then run `runSteps` (steps 4 and 5), with the
unconditional step-6 writes producing the final state.  The two writes
target distinct keys of the same binding and are modelled sequentially.
Any exception escaping a step makes the whole body throw (caught by
`scheduled` below). -/
def scheduledInner (megaMillions powerball : LotteryResult) (env : Env) (now : String) :
    Except String RunResult :=
  runSteps megaMillions powerball env
    (getPreviousJackpot env.LOTTERY_STATE "Mega Millions")
    (getPreviousJackpot env.LOTTERY_STATE "Powerball")
    (checkThresholds megaMillions powerball env)
    (storePreviousJackpot
      (storePreviousJackpot env.LOTTERY_STATE "Mega Millions" megaMillions.jackpotAmount now)
      "Powerball" powerball.jackpotAmount now)

/-- The `scheduled` handler: the outer `try/catch` turns any thrown
error into a logged, effect-free run (`none`). -/
def scheduled (megaMillions powerball : LotteryResult) (env : Env) (now : String) :
    Option RunResult :=
  match scheduledInner megaMillions powerball env now with
  | .ok r => some r
  | .error _ => none

/-- Claim C1: for every triple of finite numbers previous `p`, current
`c`, threshold `t`, `detectThresholdCrossing p c t` returns a decision
whose `crossed` field equals `p < t AND c >= t`; in particular downward
movement never sets `crossed`, equality on the current side counts, and
equality on the previous side alone does not. -/
theorem detect_crossed_iff (p c t : ℚ) :
    ∃ r, detectThresholdCrossing (.num (.fin p)) (.num (.fin c)) (.num (.fin t)) = .ok r ∧
      (r.crossed = true ↔ p < t ∧ t ≤ c) := by
  refine ⟨_, rfl, ?_⟩
  simp [jlt, jge, JSVal.toNum]

/-- A value never compares simultaneously strictly below and at-or-above
the same threshold, under the JavaScript comparison semantics. -/
theorem jlt_and_jge_self (v T : JSNum) : (jlt v T && jge v T) = false := by
  cases v <;> cases T <;> simp [jlt, jge]

/-- Claim C3 counterexample: an infinite parameter does not throw.
`detectThresholdCrossing(1000, Infinity, 1500)` returns normally (and
even reports a crossing), refuting the claim that every non-finite
parameter signals an error. -/
theorem detect_infinite_input_no_throw :
    detectThresholdCrossing (.num (.fin 1000)) (.num .posInf) (.num (.fin 1500)) =
      .ok { crossed := true, previousAmount := .fin 1000, currentAmount := .posInf,
            threshold := .fin 1500 } := by
  rfl

/-- Claim C3 (amended): `detectThresholdCrossing` throws exactly when
some parameter is a non-number or `NaN`; infinite numeric parameters are
accepted, and for finite numbers it never throws. -/
theorem detect_error_iff_invalid (p c t : JSVal) :
    exceptOk (detectThresholdCrossing p c t) =
      (!jsIsInvalidNumber p && !jsIsInvalidNumber c && !jsIsInvalidNumber t) := by
  unfold detectThresholdCrossing
  by_cases hp : jsIsInvalidNumber p = true <;>
    by_cases hc : jsIsInvalidNumber c = true <;>
      by_cases ht : jsIsInvalidNumber t = true <;>
        simp [hp, hc, ht, exceptOk]

/-- The executable rounding agrees with `⌊q * 10 ^ d + 1 / 2⌋`. -/
theorem toFixedRound_eq_floor (q : ℚ) (d : ℕ) :
    toFixedRound q d = ⌊q * (10 : ℚ) ^ d + 1 / 2⌋ := by
  have hqd : (q.den : ℚ) ≠ 0 := by
    exact_mod_cast q.den_nz
  have h1 : (q.num : ℚ) = q * q.den := (div_eq_iff hqd).mp (Rat.num_div_den q)
  rw [toFixedRound, ← Rat.floor_intCast_div_natCast]
  congr 1
  push_cast
  rw [div_eq_iff (mul_ne_zero two_ne_zero hqd), h1]
  ring

/-- The executable division agrees with rational division. -/
theorem jsDivPos_eq (q k : ℚ) (hk : k ≠ 0) : jsDivPos (.fin q) k = .fin (q / k) := by
  have hqd : (q.den : ℚ) ≠ 0 := by
    exact_mod_cast q.den_nz
  have hkd : (k.den : ℚ) ≠ 0 := by
    exact_mod_cast k.den_nz
  have hkn : (k.num : ℚ) ≠ 0 := by
    exact_mod_cast Rat.num_ne_zero.mpr hk
  have h1 : (q.num : ℚ) = q * q.den := (div_eq_iff hqd).mp (Rat.num_div_den q)
  have h2 : (k.num : ℚ) = k * k.den := (div_eq_iff hkd).mp (Rat.num_div_den k)
  simp only [jsDivPos, JSNum.fin.injEq]
  rw [Rat.divInt_eq_div]
  push_cast
  rw [div_eq_div_iff (mul_ne_zero hqd hkn) hk, h1, h2]
  ring

/-- Claim C9: amounts `>= 1000` render as billions with exactly two
fractional digits and amounts below as millions with none;
`format 1700 = "$1.70 Billion"`, `format 500 = "$500 Million"`, and at
the boundary `format 1000 = "$1.00 Billion"`. -/
theorem formatJackpotDisplay_spec (q : ℚ) :
    (1000 ≤ q →
       formatJackpotDisplay (.fin q) = "$" ++ ratToFixed (q / 1000) 2 ++ " Billion" ∧
       ∃ ip fp, ratToFixed (q / 1000) 2 = ip ++ "." ++ fp ∧ fp.length = 2) ∧
    (q < 1000 →
       formatJackpotDisplay (.fin q) = "$" ++ ratToFixed q 0 ++ " Million" ∧
       ratToFixed q 0 = toString (⌊q + 1 / 2⌋ : ℤ)) ∧
    formatJackpotDisplay (.fin 1700) = "$1.70 Billion" ∧
    formatJackpotDisplay (.fin 500) = "$500 Million" ∧
    formatJackpotDisplay (.fin 1000) = "$1.00 Billion" := by
  have hd : jsDivPos (.fin q) BILLION_IN_MILLIONS = .fin (q / 1000) := by
    rw [show BILLION_IN_MILLIONS = (1000 : ℚ) from rfl, jsDivPos_eq q 1000 (by norm_num)]
  refine ⟨fun h => ⟨?_, ?_⟩, fun h => ⟨?_, ?_⟩, by decide, by decide, by decide⟩
  · have h1 : jge (.fin q) (.fin BILLION_IN_MILLIONS) = true := by
      simp [jge, BILLION_IN_MILLIONS, h]
    simp [formatJackpotDisplay, h1, hd, jsToFixed]
  · refine ⟨(if toFixedRound (q / 1000) 2 < 0 then "-" else "") ++
      toString ((toFixedRound (q / 1000) 2).natAbs / 10 ^ 2),
      fracDigitsStr (toFixedRound (q / 1000) 2).natAbs 2, ?_, ?_⟩
    · simp only [ratToFixed, String.append_assoc]
      norm_num
    · simp [fracDigitsStr, String.length]
  · have h2 : jge (.fin q) (.fin BILLION_IN_MILLIONS) = false := by
      simp [jge, BILLION_IN_MILLIONS, not_le.mpr h]
    simp [formatJackpotDisplay, h2, jsToFixed]
  · simp [ratToFixed, toFixedRound_eq_floor]

/-- Witness for claim C9 at `q = 1700`. -/
theorem formatJackpotDisplay_spec_witness :
    formatJackpotDisplay (.fin 1700) = "$" ++ ratToFixed ((1700 : ℚ) / 1000) 2 ++ " Billion" ∧
    ∃ ip fp, ratToFixed ((1700 : ℚ) / 1000) 2 = ip ++ "." ++ fp ∧ fp.length = 2 :=
  (formatJackpotDisplay_spec 1700).1 (by norm_num)

/-- Claim C7: the threshold used by `checkThresholds` is resolved, once
per run before evaluation, to the parsed configured value, except that
an absent value, a failed parse / `NaN`, or a value `<= 0` yields the
fixed default 1500 ($1.5B). -/
theorem threshold_resolution_spec (mega pb : LotteryResult) (env : Env) :
    (checkThresholds mega pb env).threshold.amount = resolvedThresholdSpec env.JACKPOT_THRESHOLD := by
  show resolveThreshold env = _
  unfold resolveThreshold Env.parsedThreshold resolvedThresholdSpec
  cases h : env.JACKPOT_THRESHOLD with
  | none => simp [JSNum.isNaN]
  | some p =>
    cases p with
    | nan => simp [JSNum.isNaN]
    | posInf => simp [JSNum.isNaN, jgt, jle, jlt, jge]
    | negInf => simp [JSNum.isNaN, jgt, jle, jlt, jge]
    | fin q =>
      by_cases h0 : (0 : ℚ) < q
      · simp [JSNum.isNaN, jgt, jle, jlt, jge, h0, not_le.mpr h0]
      · simp [JSNum.isNaN, jgt, jle, jlt, jge, h0, not_lt.mp h0]

/-- The resolved threshold is strictly positive, so an amount of `0`
never compares `>=` against it. -/
theorem jge_zero_resolveThreshold (env : Env) :
    jge (.fin 0) (resolveThreshold env) = false := by
  unfold resolveThreshold
  cases hp : env.parsedThreshold with
  | nan => simp [JSNum.isNaN, jge, DEFAULT_THRESHOLD_MILLIONS]
  | posInf => simp [JSNum.isNaN, jgt, jlt, jge, DEFAULT_THRESHOLD_MILLIONS]
  | negInf => simp [JSNum.isNaN, jgt, jlt, jge, DEFAULT_THRESHOLD_MILLIONS]
  | fin q =>
    by_cases h0 : (0 : ℚ) < q
    · simp [JSNum.isNaN, jgt, jlt, jge, h0, not_le.mpr h0, DEFAULT_THRESHOLD_MILLIONS]
    · simp [JSNum.isNaN, jgt, jlt, jge, h0, DEFAULT_THRESHOLD_MILLIONS]

/-- Claim C6: a feed result is annotated `exceedsThreshold = true` iff it
has no error and its amount is `>=` the resolved threshold; a result
carrying an error message never appears in the exceeding list regardless
of its (forced-zero) amount; the aggregate `exceeded` flag is true iff
at least one result exceeds; and the exceeding list follows the input
order, Mega Millions before Powerball.  The hypotheses are the feed
adapters' normalization invariant: an errored result carries amount 0. -/
theorem checkThresholds_spec (mega pb : LotteryResult) (env : Env)
    (hm : mega.error.isSome = true → mega.jackpotAmount = .fin 0)
    (hp : pb.error.isSome = true → pb.jackpotAmount = .fin 0) :
    ((checkThresholds mega pb env).megaMillions.exceedsThreshold = true ↔
       (mega.error = none ∧
        jge mega.jackpotAmount (checkThresholds mega pb env).threshold.amount = true)) ∧
    ((checkThresholds mega pb env).powerball.exceedsThreshold = true ↔
       (pb.error = none ∧
        jge pb.jackpotAmount (checkThresholds mega pb env).threshold.amount = true)) ∧
    ((checkThresholds mega pb env).threshold.exceeded = true ↔
       ((checkThresholds mega pb env).megaMillions.exceedsThreshold = true ∨
        (checkThresholds mega pb env).powerball.exceedsThreshold = true)) ∧
    ((checkThresholds mega pb env).threshold.exceedingLotteries =
       (if (checkThresholds mega pb env).megaMillions.exceedsThreshold then ["Mega Millions"] else []) ++
       (if (checkThresholds mega pb env).powerball.exceedsThreshold then ["Powerball"] else [])) ∧
    (mega.error.isSome = true →
       "Mega Millions" ∉ (checkThresholds mega pb env).threshold.exceedingLotteries) ∧
    (pb.error.isSome = true →
       "Powerball" ∉ (checkThresholds mega pb env).threshold.exceedingLotteries) := by
  have exceeds_iff : ∀ (res : LotteryResult),
      (res.error.isSome = true → res.jackpotAmount = .fin 0) →
      ((!optStrTruthy res.error && jge res.jackpotAmount (resolveThreshold env)) = true ↔
        (res.error = none ∧ jge res.jackpotAmount (resolveThreshold env) = true)) := by
    intro res hres
    cases he : res.error with
    | none => simp [optStrTruthy]
    | some e =>
      have hz : res.jackpotAmount = .fin 0 := hres (by simp [he])
      by_cases hee : e = ""
      · simp [optStrTruthy, hee, hz, jge_zero_resolveThreshold]
      · simp [optStrTruthy, hee]
  have err_not_exceeds : ∀ (res : LotteryResult),
      (res.error.isSome = true → res.jackpotAmount = .fin 0) →
      res.error.isSome = true →
      (!optStrTruthy res.error && jge res.jackpotAmount (resolveThreshold env)) = false := by
    intro res hres he
    cases heq : res.error with
    | none => rw [heq] at he; simp at he
    | some e =>
      have hz : res.jackpotAmount = .fin 0 := hres he
      by_cases hee : e = ""
      · simp [optStrTruthy, hee, hz, jge_zero_resolveThreshold]
      · simp [optStrTruthy, hee]
  refine ⟨exceeds_iff mega hm, exceeds_iff pb hp, ?_, ?_, ?_, ?_⟩
  · show decide (List.length _ > 0) = true ↔ _
    cases hb1 : (!optStrTruthy mega.error && jge mega.jackpotAmount (resolveThreshold env)) <;>
      cases hb2 : (!optStrTruthy pb.error && jge pb.jackpotAmount (resolveThreshold env)) <;>
        simp [checkThresholds, hb1, hb2]
  · show _ = (if (!optStrTruthy mega.error && _) = true then _ else _) ++ _
    rfl
  · intro he
    have h1 := err_not_exceeds mega hm he
    show "Mega Millions" ∉
      (if (!optStrTruthy mega.error && jge mega.jackpotAmount (resolveThreshold env)) = true
        then ["Mega Millions"] else []) ++
      (if (!optStrTruthy pb.error && jge pb.jackpotAmount (resolveThreshold env)) = true
        then ["Powerball"] else [])
    rw [h1]
    cases hb2 : (!optStrTruthy pb.error && jge pb.jackpotAmount (resolveThreshold env)) <;>
      simp
  · intro he
    have h1 := err_not_exceeds pb hp he
    show "Powerball" ∉
      (if (!optStrTruthy mega.error && jge mega.jackpotAmount (resolveThreshold env)) = true
        then ["Mega Millions"] else []) ++
      (if (!optStrTruthy pb.error && jge pb.jackpotAmount (resolveThreshold env)) = true
        then ["Powerball"] else [])
    rw [h1]
    cases hb1 : (!optStrTruthy mega.error && jge mega.jackpotAmount (resolveThreshold env)) <;>
      simp

/-- Witness for claim C6: with an errored Powerball result (forced-zero
amount) it never appears in the exceeding list. -/
theorem checkThresholds_spec_witness :
    "Powerball" ∉ (checkThresholds megaSample powerballErrSample envSample).threshold.exceedingLotteries :=
  (checkThresholds_spec megaSample powerballErrSample envSample
    (by intro h; simp [megaSample] at h) (fun _ => rfl)).2.2.2.2.2 rfl

/-- Claim C10: storing an amount for a lottery in a key-value store that
faithfully implements get/put (no read or write failure) and reading it
back recovers the amount exactly; in particular a stored `0` reads back
as `0`. -/
theorem state_store_roundtrip (store : KVStore) (lotteryName now : String) (a : ℚ)
    (hr : store.readFails = false) (hw : store.writeFails = false) (ha : 0 ≤ a) :
    getPreviousJackpot (storePreviousJackpot (some store) lotteryName (.fin a) now) lotteryName =
      .fin a := by
  by_cases h0 : a = 0
  · subst h0
    simp [storePreviousJackpot, hw, getPreviousJackpot, hr, List.lookup, jsonNumber, jsTruthy]
  · simp [storePreviousJackpot, hw, getPreviousJackpot, hr, List.lookup, jsonNumber, jsTruthy, h0]

/-- Witness for claim C10 at an empty store, the Mega Millions key and
amount 1700. -/
theorem state_store_roundtrip_witness :
    getPreviousJackpot
      (storePreviousJackpot (some { entries := [], readFails := false, writeFails := false })
        "Mega Millions" (.fin 1700) "2026-01-01T00:00:00Z") "Mega Millions" = .fin 1700 :=
  state_store_roundtrip _ "Mega Millions" "2026-01-01T00:00:00Z" 1700 rfl rfl (by norm_num)

/-- What a successful `notifyStep` returns: every dispatched
notification is tagged with the feed name, and something is dispatched
exactly when the crossing fired, the error field is falsy and the email
transport is configured. -/
theorem notifyStep_ok (lotteryName : String) (crossed : Bool) (errorMessage : Option String)
    (env : Env) (p c t : JSNum) (nd subj : String) (l : List Notification)
    (h : notifyStep lotteryName crossed errorMessage env p c t nd subj = .ok l) :
    (∀ n ∈ l, n.lottery = lotteryName) ∧
    (l ≠ [] ↔ (crossed = true ∧ optStrTruthy errorMessage = false ∧
               isEmailConfigured env = true)) := by
  unfold notifyStep at h
  split at h
  · rename_i hcond
    simp only [Bool.and_eq_true, Bool.not_eq_true'] at hcond
    cases hb : buildNotificationEmail lotteryName p c t nd with
    | error e => rw [hb] at h; simp [Except.map] at h
    | ok html =>
      rw [hb] at h
      simp only [Except.map] at h
      injection h with h
      subst h
      refine ⟨?_, ?_⟩
      · intro n hn
        simp only [List.mem_singleton] at hn
        subst hn
        rfl
      · simp [hcond.1.1, hcond.1.2, hcond.2]
  · rename_i hcond
    simp only [Bool.and_eq_true, Bool.not_eq_true', not_and] at hcond
    injection h with h
    subst h
    refine ⟨by intro n hn; simp at hn, ?_⟩
    simp only [ne_eq, not_true_eq_false, false_iff]
    rintro ⟨h1, h2, h3⟩
    exact hcond ⟨h1, h2⟩ h3

/-- A run succeeds exactly when its body returns normally. -/
theorem scheduled_eq_some (mega pb : LotteryResult) (env : Env) (now : String) (r : RunResult) :
    scheduled mega pb env now = some r ↔ scheduledInner mega pb env now = .ok r := by
  unfold scheduled
  cases hsi : scheduledInner mega pb env now <;> simp

/-- Decomposition of a successful run into its intermediate steps. -/
theorem scheduled_ok_elim (mega pb : LotteryResult) (env : Env) (now : String) (r : RunResult)
    (h : scheduled mega pb env now = some r) :
    ∃ mc pc mn pn,
      detectThresholdCrossing (.num (getPreviousJackpot env.LOTTERY_STATE "Mega Millions"))
        (.num mega.jackpotAmount) (.num (checkThresholds mega pb env).threshold.amount) = .ok mc ∧
      detectThresholdCrossing (.num (getPreviousJackpot env.LOTTERY_STATE "Powerball"))
        (.num pb.jackpotAmount) (.num (checkThresholds mega pb env).threshold.amount) = .ok pc ∧
      notifyStep "Mega Millions" mc.crossed mega.error env
        (getPreviousJackpot env.LOTTERY_STATE "Mega Millions") mega.jackpotAmount
        (checkThresholds mega pb env).threshold.amount mega.nextDrawing
        "🎰 Mega Millions Jackpot Alert!" = .ok mn ∧
      notifyStep "Powerball" pc.crossed pb.error env
        (getPreviousJackpot env.LOTTERY_STATE "Powerball") pb.jackpotAmount
        (checkThresholds mega pb env).threshold.amount pb.nextDrawing
        "🎰 Powerball Jackpot Alert!" = .ok pn ∧
      r = { results := checkThresholds mega pb env, megaCrossing := mc, powerballCrossing := pc,
            notifications := mn ++ pn,
            finalState := storePreviousJackpot
              (storePreviousJackpot env.LOTTERY_STATE "Mega Millions" mega.jackpotAmount now)
              "Powerball" pb.jackpotAmount now } := by
  rw [scheduled_eq_some] at h
  simp only [scheduledInner, runSteps] at h
  split at h
  · simp at h
  · rename_i mc hd1
    split at h
    · simp at h
    · rename_i pc hd2
      split at h
      · simp at h
      · rename_i mn hn1
        split at h
        · simp at h
        · rename_i pn hn2
          injection h with h
          exact ⟨mc, pc, mn, pn, hd1, hd2, hn1, hn2, h.symm⟩

/-- Membership of a feed name in the combined notification list reduces
to the feed own batch being nonempty. -/
theorem mem_append_name (mn pn : List Notification) (name other : String)
    (hmem1 : ∀ n ∈ mn, n.lottery = name) (hmem2 : ∀ n ∈ pn, n.lottery = other)
    (hne : other ≠ name) :
    ((∃ n ∈ mn ++ pn, n.lottery = name) ↔ mn ≠ []) := by
  constructor
  · rintro ⟨n, hn, hl⟩
    rcases List.mem_append.mp hn with h1 | h2
    · exact List.ne_nil_of_mem h1
    · exact absurd ((hmem2 n h2).symm.trans hl) hne
  · intro hmn
    match mn, hmn with
    | n :: rest, _ =>
      exact ⟨n, List.mem_append.mpr (Or.inl (List.mem_cons_self _ _)),
        hmem1 n (List.mem_cons_self _ _)⟩

/-- Under the adapters' normalization invariant (an errored result
carries amount 0), the notification condition with the code's truthiness
test on the error field coincides with the one worded via
`error = none`: an empty-string error message is treated as no error by
the code, but then the amount is 0 and the crossing cannot have fired. -/
theorem crossed_error_conversion (env : Env) (res : LotteryResult) (prev : JSNum)
    (mc : ThresholdCrossingInfo)
    (hd : detectThresholdCrossing (.num prev) (.num res.jackpotAmount)
      (.num (resolveThreshold env)) = .ok mc)
    (hz : res.error.isSome = true → res.jackpotAmount = .fin 0) :
    ((mc.crossed = true ∧ optStrTruthy res.error = false ∧ isEmailConfigured env = true) ↔
     (mc.crossed = true ∧ res.error = none ∧ isEmailConfigured env = true)) := by
  cases he : res.error with
  | none => simp [optStrTruthy]
  | some e =>
    by_cases hee : e = ""
    · have hz0 : res.jackpotAmount = .fin 0 := hz (by simp [he])
      rw [hz0] at hd
      have hcr : mc.crossed = false := by
        unfold detectThresholdCrossing at hd
        split at hd
        · simp at hd
        · split at hd
          · simp at hd
          · split at hd
            · simp at hd
            · injection hd with hd
              rw [← hd]
              show (jlt _ _ && jge (JSVal.toNum (.num (.fin 0))) _) = false
              rw [show JSVal.toNum (.num (.fin 0)) = .fin 0 from rfl,
                show JSVal.toNum (.num (resolveThreshold env)) = resolveThreshold env from rfl,
                jge_zero_resolveThreshold, Bool.and_false]
      simp [hcr]
    · simp [optStrTruthy, hee]

/-- Claim C4: in a scheduled run, a notification is built and dispatched
for a feed iff that feed crossing decision has `crossed = true`, the
feed result carries no error, and the email transport is configured
(both addresses present); the two crossings are detected in every
successful run, and when the transport is not configured no dispatch is
made while persistence still occurs.  The hypotheses `hm`, `hp` are the
adapters' normalization invariant (errored results carry amount 0). -/
theorem scheduled_notifies_iff (mega pb : LotteryResult) (env : Env) (now : String) (r : RunResult)
    (h : scheduled mega pb env now = some r)
    (hm : mega.error.isSome = true → mega.jackpotAmount = .fin 0)
    (hp : pb.error.isSome = true → pb.jackpotAmount = .fin 0) :
    ((∃ n ∈ r.notifications, n.lottery = "Mega Millions") ↔
       (r.megaCrossing.crossed = true ∧ mega.error = none ∧ isEmailConfigured env = true)) ∧
    ((∃ n ∈ r.notifications, n.lottery = "Powerball") ↔
       (r.powerballCrossing.crossed = true ∧ pb.error = none ∧ isEmailConfigured env = true)) ∧
    (detectThresholdCrossing (.num (getPreviousJackpot env.LOTTERY_STATE "Mega Millions"))
       (.num mega.jackpotAmount) (.num (checkThresholds mega pb env).threshold.amount) =
       .ok r.megaCrossing) ∧
    (detectThresholdCrossing (.num (getPreviousJackpot env.LOTTERY_STATE "Powerball"))
       (.num pb.jackpotAmount) (.num (checkThresholds mega pb env).threshold.amount) =
       .ok r.powerballCrossing) ∧
    (isEmailConfigured env = false →
       r.notifications = [] ∧
       r.finalState = storePreviousJackpot
         (storePreviousJackpot env.LOTTERY_STATE "Mega Millions" mega.jackpotAmount now)
         "Powerball" pb.jackpotAmount now) := by
  obtain ⟨mc, pc, mn, pn, hd1, hd2, hn1, hn2, hr⟩ := scheduled_ok_elim mega pb env now r h
  subst hr
  obtain ⟨hmem1, hne1⟩ := notifyStep_ok _ _ _ _ _ _ _ _ _ _ hn1
  obtain ⟨hmem2, hne2⟩ := notifyStep_ok _ _ _ _ _ _ _ _ _ _ hn2
  refine ⟨?_, ?_, hd1, hd2, ?_⟩
  · exact (mem_append_name mn pn "Mega Millions" "Powerball" hmem1 hmem2 (by decide)).trans
      (hne1.trans (crossed_error_conversion env mega _ mc hd1 hm))
  · constructor
    · rintro ⟨n, hn, hl⟩
      rcases List.mem_append.mp hn with h1 | h2
      · exact absurd ((hmem1 n h1).symm.trans hl) (by decide)
      · exact ((mem_append_name pn mn "Powerball" "Mega Millions" hmem2 hmem1 (by decide)).mp
          ⟨n, List.mem_append.mpr (Or.inl h2), hl⟩ |> fun hpn =>
          ((hne2.trans (crossed_error_conversion env pb _ pc hd2 hp)).mp hpn))
    · intro hrhs
      have hpn : pn ≠ [] := hne2.mpr ((crossed_error_conversion env pb _ pc hd2 hp).mpr hrhs)
      match pn, hpn with
      | n :: rest, _ =>
        exact ⟨n, List.mem_append.mpr (Or.inr (List.mem_cons_self _ _)),
          hmem2 n (List.mem_cons_self _ _)⟩
  · intro hcfg
    have hmn : mn = [] := by
      by_contra hne
      have := hne1.mp hne
      rw [hcfg] at this
      simp at this
    have hpn : pn = [] := by
      by_contra hne
      have := hne2.mp hne
      rw [hcfg] at this
      simp at this
    subst hmn
    subst hpn
    exact ⟨rfl, rfl⟩

/-- Claim C5: at the end of every successful scheduled run, the current
amount of every feed is written to the state store — the writes are
unconditional, so they also happen for errored feeds (whose normalized
amount is 0) and regardless of crossing outcome or notification
success; against a working bound store both entries land with the run
timestamp. -/
theorem scheduled_persists (mega pb : LotteryResult) (env : Env) (now : String) (r : RunResult)
    (h : scheduled mega pb env now = some r) :
    r.finalState = storePreviousJackpot
      (storePreviousJackpot env.LOTTERY_STATE "Mega Millions" mega.jackpotAmount now)
      "Powerball" pb.jackpotAmount now ∧
    (∀ store : KVStore, env.LOTTERY_STATE = some store → store.writeFails = false →
      r.finalState = some { store with entries :=
        ("Powerball", KVEntry.record (jsonNumber pb.jackpotAmount) now) ::
        ("Mega Millions", KVEntry.record (jsonNumber mega.jackpotAmount) now) ::
        store.entries }) := by
  obtain ⟨mc, pc, mn, pn, hd1, hd2, hn1, hn2, hr⟩ := scheduled_ok_elim mega pb env now r h
  subst hr
  refine ⟨rfl, ?_⟩
  intro store hs hw
  show storePreviousJackpot
    (storePreviousJackpot env.LOTTERY_STATE "Mega Millions" mega.jackpotAmount now)
    "Powerball" pb.jackpotAmount now = _
  rw [hs]
  simp [storePreviousJackpot, hw]

/-- Witness for claim C4: a crossing feed with email configured gets a
notification dispatched. -/
theorem scheduled_notifies_iff_witness :
    ∃ r, scheduled megaSample powerballErrSample envSample "2026-01-01T00:00:00Z" = some r ∧
      ((∃ n ∈ r.notifications, n.lottery = "Mega Millions") ↔
        (r.megaCrossing.crossed = true ∧ megaSample.error = none ∧
         isEmailConfigured envSample = true)) := by
  have hs : (scheduled megaSample powerballErrSample envSample "2026-01-01T00:00:00Z").isSome = true := by
    decide
  exact ⟨_, (Option.some_get hs).symm,
    (scheduled_notifies_iff megaSample powerballErrSample envSample "2026-01-01T00:00:00Z" _
      (Option.some_get hs).symm (by intro hx; simp [megaSample] at hx) (fun _ => rfl)).1⟩

/-- Witness for claim C5: both feeds' amounts (the errored one as 0) are
persisted at the end of a successful run. -/
theorem scheduled_persists_witness :
    ∃ r, scheduled megaSample powerballErrSample envSample "2026-01-02T00:00:00Z" = some r ∧
      r.finalState = some
        ⟨[("Powerball", KVEntry.record (some (.fin 0)) "2026-01-02T00:00:00Z"),
          ("Mega Millions", KVEntry.record (some (.fin 1700)) "2026-01-02T00:00:00Z")],
         false, false⟩ := by
  have hs : (scheduled megaSample powerballErrSample envSample "2026-01-02T00:00:00Z").isSome = true := by
    decide
  exact ⟨_, (Option.some_get hs).symm,
    (scheduled_persists megaSample powerballErrSample envSample "2026-01-02T00:00:00Z" _
      (Option.some_get hs).symm).2 { entries := [], readFails := false, writeFails := false } rfl rfl⟩

/-- `runSteps` only threads the final state into the assembled result:
remapping enters every success unchanged. -/
theorem runSteps_finalState (mega pb : LotteryResult) (env : Env) (pm pp : JSNum)
    (results : ThresholdResults) (s1 s2 : Option KVStore) :
    (runSteps mega pb env pm pp results s1).map (fun r => { r with finalState := s2 }) =
      runSteps mega pb env pm pp results s2 := by
  simp only [runSteps]
  split
  · simp [Except.map]
  · split
    · simp [Except.map]
    · split
      · simp [Except.map]
      · split
        · simp [Except.map]
        · simp [Except.map]

/-- A failed write does not fail the run: against a store whose writes
throw, a scheduled run produces exactly the same outcome (success or
failure, crossings, notifications, logs) as against the same store with
working writes, except that the final state is the unchanged store. -/
theorem scheduled_writeFails (mega pb : LotteryResult) (env : Env) (store : KVStore)
    (now : String) :
    scheduled mega pb { env with LOTTERY_STATE := some { store with writeFails := true } } now =
      (scheduled mega pb { env with LOTTERY_STATE := some { store with writeFails := false } } now).map
        (fun r => { r with finalState := some { store with writeFails := true } }) := by
  have hget : ∀ n : String,
      getPreviousJackpot
        ({ env with LOTTERY_STATE := some { store with writeFails := true } } : Env).LOTTERY_STATE n =
      getPreviousJackpot
        ({ env with LOTTERY_STATE := some { store with writeFails := false } } : Env).LOTTERY_STATE n :=
    fun _ => rfl
  have hct : checkThresholds mega pb
        { env with LOTTERY_STATE := some { store with writeFails := true } } =
      checkThresholds mega pb
        { env with LOTTERY_STATE := some { store with writeFails := false } } := rfl
  have henv : ∀ (pm pp : JSNum) (results : ThresholdResults) (s : Option KVStore),
      runSteps mega pb { env with LOTTERY_STATE := some { store with writeFails := true } }
        pm pp results s =
      runSteps mega pb { env with LOTTERY_STATE := some { store with writeFails := false } }
        pm pp results s := fun _ _ _ _ => rfl
  have hS1 : storePreviousJackpot
      (storePreviousJackpot
        ({ env with LOTTERY_STATE := some { store with writeFails := true } } : Env).LOTTERY_STATE
        "Mega Millions" mega.jackpotAmount now)
      "Powerball" pb.jackpotAmount now = some { store with writeFails := true } := rfl
  have hsi : scheduledInner mega pb
        { env with LOTTERY_STATE := some { store with writeFails := true } } now =
      (scheduledInner mega pb
        { env with LOTTERY_STATE := some { store with writeFails := false } } now).map
        (fun r => { r with finalState := some { store with writeFails := true } }) := by
    unfold scheduledInner
    rw [hget "Mega Millions", hget "Powerball", hct, hS1, henv]
    exact (runSteps_finalState _ _ _ _ _ _ _ _).symm
  unfold scheduled
  rw [hsi]
  cases scheduledInner mega pb
    { env with LOTTERY_STATE := some { store with writeFails := false } } now <;>
    simp [Except.map]

/-- Claim C8: reading previous state returns 0 (never an error) when the
binding is absent, the read throws, the key is missing, or the stored
value does not parse; and writing swallows any storage error — the store
operation returns normally with the store unchanged, and a run against a
failing-write store has exactly the same outcome as against a working
one, except for the unchanged state. -/
theorem state_store_error_containment (lotteryName now : String) (amount : JSNum) :
    getPreviousJackpot none lotteryName = .fin 0 ∧
    (∀ store : KVStore, store.readFails = true →
       getPreviousJackpot (some store) lotteryName = .fin 0) ∧
    (∀ store : KVStore, store.entries.lookup lotteryName = none →
       getPreviousJackpot (some store) lotteryName = .fin 0) ∧
    (∀ store : KVStore, store.entries.lookup lotteryName = some .corrupt →
       getPreviousJackpot (some store) lotteryName = .fin 0) ∧
    (∀ store : KVStore, store.writeFails = true →
       storePreviousJackpot (some store) lotteryName amount now = some store) ∧
    (∀ (mega pb : LotteryResult) (env : Env) (store : KVStore),
       scheduled mega pb { env with LOTTERY_STATE := some { store with writeFails := true } } now =
         (scheduled mega pb
           { env with LOTTERY_STATE := some { store with writeFails := false } } now).map
           (fun r => { r with finalState := some { store with writeFails := true } })) := by
  refine ⟨rfl, ?_, ?_, ?_, ?_, ?_⟩
  · intro store h
    simp [getPreviousJackpot, h]
  · intro store h
    cases hr : store.readFails <;> simp [getPreviousJackpot, h, hr]
  · intro store h
    cases hr : store.readFails <;> simp [getPreviousJackpot, h, hr]
  · intro store h
    simp [storePreviousJackpot, h]
  · intro mega pb env store
    exact scheduled_writeFails mega pb env store now

/-- Witness for claim C8: a throwing read resolves to 0, and a throwing
write returns with the store unchanged. -/
theorem state_store_error_containment_witness :
    getPreviousJackpot (some ⟨[], true, false⟩) "Mega Millions" = .fin 0 ∧
    storePreviousJackpot (some ⟨[], false, true⟩) "Mega Millions" (.fin 1700)
      "2026-01-03T00:00:00Z" = some ⟨[], false, true⟩ :=
  ⟨(state_store_error_containment "Mega Millions" "2026-01-03T00:00:00Z" (.fin 1700)).2.1
      ⟨[], true, false⟩ rfl,
   (state_store_error_containment "Mega Millions" "2026-01-03T00:00:00Z" (.fin 1700)).2.2.2.2.1
      ⟨[], false, true⟩ rfl⟩

/-- Claim C2: for all amounts `a ≥ t > 0`, the detector applied to
previous = current = `a` reports no crossing; consequently a second
scheduled run whose previous amount (read back from the persisted
state) equals its current amount produces no notification for that
feed — running the same input twice in a row never notifies twice. -/
theorem detect_no_recross (a t : ℚ) (ht : 0 < t) (ha : t ≤ a) :
    (∃ r, detectThresholdCrossing (.num (.fin a)) (.num (.fin a)) (.num (.fin t)) = .ok r ∧
      r.crossed = false) ∧
    (∀ (mega pb : LotteryResult) (env : Env) (now : String) (r : RunResult),
      scheduled mega pb env now = some r →
      mega.jackpotAmount = .fin a →
      getPreviousJackpot env.LOTTERY_STATE "Mega Millions" = .fin a →
      ¬ ∃ n ∈ r.notifications, n.lottery = "Mega Millions") := by
  constructor
  · refine ⟨_, rfl, ?_⟩
    simp [jlt, jge, JSVal.toNum, not_lt.mpr ha]
  · intro mega pb env now r hrun hcur hprev
    obtain ⟨mc, pc, mn, pn, hd1, hd2, hn1, hn2, hr⟩ := scheduled_ok_elim mega pb env now r hrun
    subst hr
    rw [hprev, hcur] at hd1
    have hcross : mc.crossed = false := by
      unfold detectThresholdCrossing at hd1
      repeat' split at hd1
      any_goals exact Except.noConfusion hd1
      injection hd1 with hd1
      rw [← hd1]
      exact jlt_and_jge_self _ _
    obtain ⟨hmem1, hne1⟩ := notifyStep_ok _ _ _ _ _ _ _ _ _ _ hn1
    obtain ⟨hmem2, _⟩ := notifyStep_ok _ _ _ _ _ _ _ _ _ _ hn2
    rintro ⟨n, hn, hl⟩
    rcases List.mem_append.mp hn with h1 | h2
    · have hmm := hne1.mp (List.ne_nil_of_mem h1)
      rw [hcross] at hmm
      simp at hmm
    · exact absurd ((hmem2 n h2).symm.trans hl) (by decide)

/-- Witness for claim C2 at `a = 1600`, `t = 1500`. -/
theorem detect_no_recross_witness :
    ∃ r, detectThresholdCrossing (.num (.fin 1600)) (.num (.fin 1600)) (.num (.fin 1500)) = .ok r ∧
      r.crossed = false :=
  (detect_no_recross 1600 1500 (by norm_num) (by norm_num)).1
